import Mathlib

/-!
Verification of the code-parsing utilities, telemetry glue, chat-session
wrapper and quick-action generator of the AWS Toolkit / Amazon Q extension.

The heuristic source-parsing utilities (`isTestFile`, `extractFunctions`,
`extractClasses`, `utgLanguageConfigs`) are shipped in
`codeParsingUtil.ts`, of which only the unit-test file is present here;
those definitions are therefore modelled from the specification document
(sections 3, 4.1, 4.2, 7, 8), which describes the per-language test-file
naming conventions, the directory markers and the top-to-bottom scanning
behaviour of the extractors.  `ChatSession.chat`, `convertLegacy` and
`QuickActionGenerator.generateForTab` are embedded directly from their
TypeScript sources.
-/

/-! ## Character-list utilities

All string computation is done on `List Char` (`String.data`) with
hand-rolled structural recursions, so that every theorem below can be
checked by kernel evaluation. -/

/-- Equality test on character lists. -/
def charListEq : List Char → List Char → Bool
  | [], [] => true
  | a :: as, b :: bs => a == b && charListEq as bs
  | _, _ => false

/-- Equality test on strings via their character lists. -/
def strEq (a b : String) : Bool :=
  charListEq a.data b.data

/-- `startsWithList pat cs` holds when `pat` is an initial segment of `cs`. -/
def startsWithList : List Char → List Char → Bool
  | [], _ => true
  | _ :: _, [] => false
  | p :: ps, c :: cs => p == c && startsWithList ps cs

/-- `endsWithList pat cs` holds when `pat` is a final segment of `cs`. -/
def endsWithList (pat cs : List Char) : Bool :=
  startsWithList pat.reverse cs.reverse

/-- Split a character list at every occurrence of the separator, keeping
empty segments (the behaviour of splitting a path on `/`). -/
def splitOnChar (sep : Char) : List Char → List (List Char)
  | [] => [[]]
  | c :: rest =>
    if c == sep then
      [] :: splitOnChar sep rest
    else
      match splitOnChar sep rest with
      | [] => [[c]]
      | seg :: segs => (c :: seg) :: segs

/-! ## Test-file classifier (modelled from the spec) -/

/-- Modelled from the spec: the per-language part of a language profile used
for test-file classification, missing from the sources (only the unit tests
of `codeParsingUtil.ts` are present).  A profile carries the language's file
extension together with the filename prefixes and the pre-extension suffixes
that mark a test file (spec 3 and 4.2: patterns such as `Test*.ext`,
`*Test.ext`, `test_*.py`, `*_test.py`, `*.test.ts`, `*.spec.ts`). -/
structure UtgLanguageConfig where
  extension : List Char
  testNameBeginnings : List (List Char)
  testNameEndings : List (List Char)
deriving DecidableEq, Repr

/-- Modelled from the spec: the directory markers of a language profile
("test", "tests", "tst", spec section 3). -/
def testDirMarkers : List String :=
  ["test", "tests", "tst"]

/-- Modelled from the spec: the profile table for the supported languages,
keyed by language identifier, standing in for the `utgLanguageConfigs`
record of `codeParsingUtil.ts` (missing from the sources). -/
def utgLanguageConfigs : List (String × UtgLanguageConfig) :=
  [ ("java", ⟨".java".data, ["Test".data], ["Test".data, "Tests".data]⟩),
    ("python", ⟨".py".data, ["test_".data], ["_test".data]⟩),
    ("typescript", ⟨".ts".data, [], [".test".data, ".spec".data]⟩),
    ("javascript", ⟨".js".data, [], [".test".data, ".spec".data]⟩),
    ("typescriptreact", ⟨".tsx".data, [], [".test".data, ".spec".data]⟩),
    ("javascriptreact", ⟨".jsx".data, [], [".test".data, ".spec".data]⟩) ]

/-- The language identifiers having a profile. -/
def supportedLanguageIds : List String :=
  ["java", "python", "typescript", "javascript", "typescriptreact", "javascriptreact"]

/-- Association lookup in the profile table. -/
def lookupConfig : List (String × UtgLanguageConfig) → String → Option UtgLanguageConfig
  | [], _ => none
  | (key, cfg) :: rest, languageId =>
    if strEq key languageId then some cfg else lookupConfig rest languageId

/-- The profile of a language identifier, `none` when unsupported. -/
def findConfig (languageId : String) : Option UtgLanguageConfig :=
  lookupConfig utgLanguageConfigs languageId

/-- The segments of a file path, split on the path separator. -/
def splitPath (filePath : String) : List (List Char) :=
  splitOnChar '/' filePath.data

/-- Whether some path segment equals one of the test-directory markers. -/
def hasTestDirMarker (segments : List (List Char)) : Bool :=
  segments.any fun seg => testDirMarkers.any fun m => charListEq seg m.data

/-- Modelled from the spec: whether a bare filename matches the language's
test-naming convention — it carries the language's extension and either
begins with a test prefix or ends with a test suffix followed by the
extension (spec 4.2). -/
def matchesTestFilename (cfg : UtgLanguageConfig) (fileName : List Char) : Bool :=
  endsWithList cfg.extension fileName &&
    (cfg.testNameBeginnings.any (fun p => startsWithList p fileName) ||
     cfg.testNameEndings.any (fun s => endsWithList (s ++ cfg.extension) fileName))

/-- Modelled from the spec: `isTestFile` of `codeParsingUtil.ts` (missing
from the sources; spec 4.2).  A path is a test file for a supported language
when some path segment equals a test-directory marker, or when its filename
(the last segment) matches the language's test-naming convention; an
unsupported language identifier always yields `false`. -/
def isTestFile (filePath : String) (languageId : String) : Bool :=
  match findConfig languageId with
  | none => false
  | some cfg =>
    let segments := splitPath filePath
    if hasTestDirMarker segments then true
    else matchesTestFilename cfg (segments.getLastD [])

/-! ## Declaration extractors (modelled from the spec) -/

/-- Word characters of the extraction heuristic (the `\w` class). -/
def isWordChar (c : Char) : Bool :=
  c.isAlphanum || c == '_'

/-- Whitespace characters of the extraction heuristic (the `\s` class). -/
def isSpaceChar (c : Char) : Bool :=
  c == ' ' || c == '\t' || c == '\n' || c == '\r'

/-- Modelled from the spec: a pattern rule of a language profile (spec 3,
4.1), as used by the python fixtures of the unit tests — a declaration
keyword followed by whitespace and the declared name, optionally anchored
at the start of a line (the `^` multiline anchor of the class rule). -/
structure PatternRule where
  keyword : String
  anchored : Bool
deriving DecidableEq, Repr

/-- Consume the keyword at the head of the input, or fail. -/
def dropKeyword : List Char → List Char → Option (List Char)
  | [], cs => some cs
  | _ :: _, [] => none
  | k :: ks, c :: cs => if k == c then dropKeyword ks cs else none

/-- Try to match `keyword \s+ \w+` at the head of the input, returning the
declared name and the input remaining after the match. -/
def tryMatchAt (keyword : List Char) (cs : List Char) : Option (List Char × List Char) :=
  match dropKeyword keyword cs with
  | none => none
  | some afterKeyword =>
    match afterKeyword with
    | [] => none
    | c :: rest =>
      if isSpaceChar c then
        let afterSpaces := rest.dropWhile isSpaceChar
        let name := afterSpaces.takeWhile isWordChar
        match name with
        | [] => none
        | _ :: _ => some (name, afterSpaces.drop name.length)
      else none

/-- Top-to-bottom scan collecting every match of the rule, resuming after
each match (the semantics of a global regex search).  The fuel argument is
initialised to more than the length of the input; every step consumes at
least one character, so the fuel never runs out. -/
def scanText (keyword : List Char) (anchored : Bool) :
    Nat → Bool → List Char → List String
  | 0, _, _ => []
  | _, _, [] => []
  | fuel + 1, atLineStart, c :: rest =>
    if anchored && !atLineStart then
      scanText keyword anchored fuel (c == '\n') rest
    else
      match tryMatchAt keyword (c :: rest) with
      | some (name, afterMatch) =>
        String.mk name :: scanText keyword anchored fuel false afterMatch
      | none => scanText keyword anchored fuel (c == '\n') rest

/-- Modelled from the spec: the declaration extractor of
`codeParsingUtil.ts` (missing from the sources; spec 4.1) — the ordered
sequence of declaration names as they appear in the text, scanning top to
bottom, duplicates preserved. -/
def extractNames (fileContent : String) (pattern : PatternRule) : List String :=
  scanText pattern.keyword.data pattern.anchored
    (fileContent.data.length + 1) true fileContent.data

/-- Modelled from the spec: `extractFunctions` of `codeParsingUtil.ts`. -/
def extractFunctions (fileContent : String) (pattern : PatternRule) : List String :=
  extractNames fileContent pattern

/-- Modelled from the spec: `extractClasses` of `codeParsingUtil.ts`. -/
def extractClasses (fileContent : String) (pattern : PatternRule) : List String :=
  extractNames fileContent pattern

/-- The function-extraction rule of the python profile (`def\s+(\w+)`,
unanchored). -/
def pythonFunctionPattern : PatternRule :=
  ⟨"def", false⟩

/-- The class-extraction rule of the python profile (`^class\s+(\w+)` with
the multiline anchor). -/
def pythonClassPattern : PatternRule :=
  ⟨"class", true⟩
/-- The python fixture of the unit tests (`pythonFileContent`), line by
line; the fixture text is the newline-join of these lines, preceded and
followed by a newline. -/
def pythonFixtureLines : List String :=
  [ "# Single-line import statements",
    "import os",
    "import numpy as np",
    "from typing import List, Tuple",
    "",
    "# Multi-line import statements",
    "from collections import (",
    "    defaultdict,",
    "    Counter",
    ")",
    "",
    "# Relative imports",
    "from . import module1",
    "from ..subpackage import module2",
    "",
    "# Wildcard imports",
    "from mypackage import *",
    "from mypackage.module import *",
    "",
    "# Aliased imports",
    "import pandas as pd",
    "from mypackage import module1 as m1, module2 as m2",
    "",
    "def hello_world():",
    "    print(\"Hello, world!\")",
    "",
    "def add_numbers(x, y):",
    "    return x + y",
    "",
    "def multiply_numbers(x=1, y=1):",
    "    return x * y",
    "",
    "def sum_numbers(*args):",
    "    total = 0",
    "    for num in args:",
    "        total += num",
    "    return total",
    "",
    "def divide_numbers(x, y=1, *args, **kwargs):",
    "    result = x / y",
    "    for arg in args:",
    "        result /= arg",
    "    for _, value in kwargs.items():",
    "        result /= value",
    "    return result",
    "",
    "class Calculator:",
    "    def __init__(self, x, y):",
    "        self.x = x",
    "        self.y = y",
    "        ",
    "    def add(self):",
    "        return self.x + self.y",
    "    ",
    "    def multiply(self):",
    "        return self.x * self.y",
    "    ",
    "    @staticmethod",
    "    def square(x):",
    "        return x ** 2",
    "    ",
    "    @classmethod",
    "    def from_sum(cls, x, y):",
    "        return cls(x+y, 0)",
    "    ",
    "    class InnerClass:",
    "        def __init__(self, z):",
    "            self.z = z",
    "            ",
    "        def triple(self):",
    "            return self.z * 3",
    "    ",
    "def main():",
    "    print(hello_world())",
    "    print(add_numbers(3, 5))",
    "    print(multiply_numbers(3, 5))",
    "    print(sum_numbers(1, 2, 3, 4, 5))",
    "    print(divide_numbers(10, 2, 5, 2, a=2, b=3))",
    "    ",
    "    calc = Calculator(3, 5)",
    "    print(calc.add())",
    "    print(calc.multiply())",
    "    print(Calculator.square(3))",
    "    print(Calculator.from_sum(2, 3).add())",
    "    ",
    "    inner = Calculator.InnerClass(5)",
    "    print(inner.triple())",
    "",
    "if __name__ == \"__main__\":",
    "    main()" ]

/-- The newline string used to assemble fixtures. -/
def newlineStr : String :=
  "\n"

/-- The python fixture text `pythonFileContent` of the unit tests. -/
def pythonFileContent : String :=
  String.intercalate newlineStr (List.cons "" pythonFixtureLines) ++ newlineStr

/-! ## Purity wrappers (modelled from the spec)

The spec (4.2, 5, 6) states that test-file classification and declaration
extraction are pure, side-effect-free string computations whose verdicts are
independent of the state of the filesystem, even though the observed editor
interface passes a live document handle.  The wrappers below make that
environment explicit: the classification and extraction observed in an
editor session with a given filesystem state. -/

/-- Modelled from the spec: `isTestFile` as observed through the editor
interface, given the filesystem state (which paths hold an existing file).
Per spec 4.2 the verdict is a pure path/string computation, so the
filesystem state is never consulted. -/
def isTestFileInEnv (fileExists : String → Bool) (filePath : String)
    (languageId : String) : Bool :=
  isTestFile filePath languageId

/-- Modelled from the spec: declaration extraction as observed through the
editor interface, given the filesystem state.  Per spec 4.1 it is a pure
function of `(text, pattern)`, so the filesystem state is never consulted. -/
def extractNamesInEnv (fileExists : String → Bool) (fileContent : String)
    (pattern : PatternRule) : List String :=
  extractNames fileContent pattern

/-! ## Chat session (`chat.ts`) -/

/-- The metadata event of a streamed chat response
(`event.messageMetadataEvent`); its conversation id may be absent. -/
structure MessageMetadataEvent where
  conversationId : Option String
deriving DecidableEq, Repr

/-- One event of the streamed chat response. -/
structure ChatResponseEvent where
  messageMetadataEvent : Option MessageMetadataEvent
deriving DecidableEq, Repr

/-- The conversation state carried by a chat request. -/
structure ConversationState where
  conversationId : Option String
deriving DecidableEq, Repr

/-- A chat request (`ChatRequest`); only the conversation state is relevant
to the session wrapper. -/
structure ChatRequest where
  conversationState : Option ConversationState
deriving DecidableEq, Repr

/-- The vendor SDK response (`ChatCommandOutput`); `chatResponse` is the
event stream, absent on an empty response. -/
structure ChatCommandOutput where
  chatResponse : Option (List ChatResponseEvent)
deriving DecidableEq, Repr

/-- The errors thrown by `ChatSession.chat` (`ToolkitError`s). -/
inductive ChatError where
  | connectionExpired
  | emptyChatResponse
deriving DecidableEq, Repr

/-- The mutable state of a `ChatSession`: its private `sessionId`, exposed
as `sessionIdentifier`. -/
structure ChatSession where
  sessionId : Option String
deriving DecidableEq, Repr

/-- The request actually forwarded to the vendor client: when the session
already has an id and the request carries a conversation state, the state's
`conversationId` is overwritten with the session id. -/
def forwardRequest (s : ChatSession) (chatRequest : ChatRequest) : ChatRequest :=
  match s.sessionId, chatRequest.conversationState with
  | some sid, some cs => { chatRequest with conversationState := some { cs with conversationId := some sid } }
  | _, _ => chatRequest

/-- The session id after reading the first event of the stream: the loop in
`chat` breaks unconditionally after the first event, updating the id from
that event's `messageMetadataEvent` when present. -/
def extractSessionId (old : Option String) (events : List ChatResponseEvent) : Option String :=
  match events with
  | [] => old
  | e :: _ =>
    match e.messageMetadataEvent with
    | some m => m.conversationId
    | none => old

/-- `ChatSession.chat` of `chat.ts`: throws when the connection is expired,
forwards the request to the vendor streaming client, throws on an empty
chat response, updates the session id from the first streamed event and
returns the vendor response together with the new session state.  The
vendor client (created lazily in the source) is passed as a function, and
the expired-connection check as a boolean. -/
def ChatSession.chat (connectionExpired : Bool)
    (client : ChatRequest → ChatCommandOutput) (s : ChatSession)
    (chatRequest : ChatRequest) : Except ChatError (ChatCommandOutput × ChatSession) :=
  if connectionExpired then
    .error .connectionExpired
  else
    let response := client (forwardRequest s chatRequest)
    match response.chatResponse with
    | none => .error .emptyChatResponse
    | some events => .ok (response, { sessionId := extractSessionId s.sessionId events })

/-! ## Telemetry `convertLegacy` (`util.ts`) -/

/-- A JavaScript value reaching `convertLegacy` (typed `unknown` in the
source): a boolean, a string, a number, `null` or `undefined`. -/
inductive JsValue where
  | bool (b : Bool)
  | str (s : String)
  | num (n : Int)
  | null
  | undef
deriving DecidableEq, Repr

/-- The `TypeError` thrown by `convertLegacy`, carrying the offending
value. -/
inductive ConvertTypeError where
  | unknownTelemetrySetting (value : JsValue)
deriving DecidableEq, Repr

/-- The legacy string value `'Disable'`. -/
def legacySettingsTelemetryValueDisable : String :=
  "Disable"

/-- The legacy string value `'Enable'`. -/
def legacySettingsTelemetryValueEnable : String :=
  "Enable"

/-- `convertLegacy` of `telemetry/util.ts`: booleans pass through, the
legacy strings map to their boolean, anything else throws a `TypeError`. -/
def convertLegacy (value : JsValue) : Except ConvertTypeError Bool :=
  match value with
  | .bool b => .ok b
  | _ =>
    if value = .str legacySettingsTelemetryValueDisable then .ok false
    else if value = .str legacySettingsTelemetryValueEnable then .ok true
    else .error (.unknownTelemetrySetting value)

/-! ## Quick-action generator (`quickActionsGenerator.ts`) -/

/-- The tab types of the chat UI (`TabType`). -/
inductive TabType where
  | cwc
  | featuredev
  | gumby
  | unknown
deriving DecidableEq, Repr

/-- A quick-action command.  In the source the base command objects carry no
`disabled` flag (it is set by the spread in `generateForTab`); here the base
commands carry `disabled := false` and the spread overwrites it. -/
structure QuickActionCommand where
  command : String
  placeholder : Option String
  description : String
  disabled : Bool
deriving DecidableEq, Repr

/-- A group of quick-action commands. -/
structure QuickActionCommandGroup where
  commands : List QuickActionCommand
deriving DecidableEq, Repr

/-- The constructor properties of `QuickActionGenerator`. -/
structure QuickActionGeneratorProps where
  isFeatureDevEnabled : Bool
  isGumbyEnabled : Bool
deriving DecidableEq, Repr

/-- The base command groups built at the top of `generateForTab`: a first
group holding `/dev` and `/transform` when the corresponding features are
enabled, and a second group always holding `/help` and `/clear`. -/
def baseQuickActionCommands (props : QuickActionGeneratorProps) : List QuickActionCommandGroup :=
  [ ⟨(if props.isFeatureDevEnabled then
        [⟨"/dev", some "Describe your task or issue in as much detail as possible",
          "Generate code to make a change in your project", false⟩]
      else []) ++
     (if props.isGumbyEnabled then
        [⟨"/transform", none, "Transform your Java 8 or 11 Maven project to Java 17", false⟩]
      else [])⟩,
    ⟨[⟨"/help", none, "Learn more about Amazon Q", false⟩,
      ⟨"/clear", none, "Clear this session", false⟩]⟩ ]

/-- The `commandUnavailability` record of `generateForTab`: per tab type,
the replacement description and the commands unavailable there. -/
def commandUnavailability (tabType : TabType) : String × List String :=
  match tabType with
  | .cwc => ("", [])
  | .featuredev => ("This command isn\x27t available in /dev", ["/dev", "/transform", "/help", "/clear"])
  | .gumby => ("This command isn\x27t available in /transform", ["/dev", "/transform"])
  | .unknown => ("", [])

/-- `QuickActionGenerator.generateForTab`: maps over the base groups,
disabling each command that is unavailable for the tab type and replacing
its description with the unavailability message. -/
def generateForTab (props : QuickActionGeneratorProps) (tabType : TabType) :
    List QuickActionCommandGroup :=
  (baseQuickActionCommands props).map fun commandGroup =>
    ⟨commandGroup.commands.map fun commandItem =>
      let commandNotAvailable :=
        (commandUnavailability tabType).2.any fun c => strEq c commandItem.command
      { commandItem with
          disabled := commandNotAvailable,
          description :=
            if commandNotAvailable then (commandUnavailability tabType).1
            else commandItem.description }⟩

/-! ## Concrete test cases and witnesses -/

/-- Canonical test-file names of the unit tests, paired with their language
identifier: every pair must classify as a test file even though no test
directory segment is present. -/
def canonicalTestFileCases : List (String × String) :=
  [ ("FooTest.java", "java"),
    ("BarTests.java", "java"),
    ("/path/to/TestMyClass.java", "java"),
    ("/path/to/MyClassTest.java", "java"),
    ("/path/to/MyClassTests.java", "java"),
    ("test_foo.py", "python"),
    ("bar_test.py", "python"),
    ("/path/to/util_test.py", "python"),
    ("/path/to/test_util.py", "python"),
    ("Foo.test.ts", "typescript"),
    ("Bar.spec.ts", "typescript"),
    ("Foo.test.js", "javascript"),
    ("Bar.spec.js", "javascript"),
    ("Foo.test.tsx", "typescriptreact"),
    ("Bar.spec.tsx", "typescriptreact"),
    ("Foo.test.jsx", "javascriptreact"),
    ("Bar.spec.jsx", "javascriptreact") ]

/-- Canonical non-test paths of the unit tests, paired with their language
identifier: every pair must classify as a non-test file, including
filenames matching another language's test convention. -/
def canonicalNonTestFileCases : List (String × String) :=
  [ ("/src/MyClass.java", "java"),
    ("MyClass.java", "java"),
    ("foo/bar/MyClass.java", "java"),
    ("foo/my_class.java", "java"),
    ("my_class.java", "java"),
    ("anyFolderOtherThanTest/foo/myClass.java", "java"),
    ("/src/MyClass.py", "python"),
    ("MyClass.py", "python"),
    ("foo/bar/MyClass.py", "python"),
    ("foo/my_class.py", "python"),
    ("my_class.py", "python"),
    ("anyFolderOtherThanTest/foo/myClass.py", "python"),
    ("/src/MyClass.ts", "typescript"),
    ("MyClass.ts", "typescript"),
    ("foo/bar/MyClass.ts", "typescript"),
    ("foo/my_class.ts", "typescript"),
    ("my_class.ts", "typescript"),
    ("anyFolderOtherThanTest/foo/myClass.ts", "typescript"),
    ("/src/MyClass.js", "javascript"),
    ("MyClass.js", "javascript"),
    ("foo/bar/MyClass.js", "javascript"),
    ("foo/my_class.js", "javascript"),
    ("my_class.js", "javascript"),
    ("anyFolderOtherThanTest/foo/myClass.js", "javascript"),
    ("/src/MyClass.tsx", "typescriptreact"),
    ("MyClass.tsx", "typescriptreact"),
    ("foo/bar/MyClass.tsx", "typescriptreact"),
    ("foo/my_class.tsx", "typescriptreact"),
    ("my_class.tsx", "typescriptreact"),
    ("anyFolderOtherThanTest/foo/myClass.tsx", "typescriptreact"),
    ("/src/MyClass.jsx", "javascriptreact"),
    ("MyClass.jsx", "javascriptreact"),
    ("foo/bar/MyClass.jsx", "javascriptreact"),
    ("foo/my_class.jsx", "javascriptreact"),
    ("my_class.jsx", "javascriptreact"),
    ("anyFolderOtherThanTest/foo/myClass.jsx", "javascriptreact"),
    ("Foo.java", "java"),
    ("Bar.java", "java"),
    ("Baz.java", "java"),
    ("foo.py", "python"),
    ("bar.py", "python"),
    ("Foo.js", "javascript"),
    ("bar.js", "javascript"),
    ("Foo.ts", "typescript"),
    ("bar.ts", "typescript"),
    ("Foo.jsx", "javascriptreact"),
    ("Bar.jsx", "javascriptreact"),
    ("/path/to/MyClass.java", "java"),
    ("/path/to/MyClass_test.java", "java"),
    ("/path/to/test_MyClass.java", "java"),
    ("/path/to/util.py", "python"),
    ("/path/to/utilTest.java", "python"),
    ("/path/to/Testutil.java", "python") ]

/-- A malformed input text holding no declaration (it even contains the
letters `def` inside a word, which must not match). -/
def malformedText : String :=
  "definitely not ))) python %%% ((("

/-- A one-event vendor client used to witness the chat theorem. -/
def chatWitnessClient : ChatRequest → ChatCommandOutput :=
  fun _ => ⟨some [⟨some ⟨some "conv-1"⟩⟩]⟩

/-! ## Helper lemmas -/

theorem charListEq_self (l : List Char) : charListEq l l = true := by
  induction l with
  | nil => rfl
  | cons c cs ih => simp [charListEq, ih]

theorem findConfig_isSome_of_supported (languageId : String)
    (h : languageId ∈ supportedLanguageIds) :
    ∃ cfg, findConfig languageId = some cfg := by
  simp only [supportedLanguageIds, List.mem_cons, List.not_mem_nil, or_false] at h
  rcases h with rfl | rfl | rfl | rfl | rfl | rfl <;> exact ⟨_, rfl⟩

/-! ## Claim theorems -/

/-- C1: for every supported language identifier and every file path that
contains a directory segment equal to "test", "tests" or "tst",
`isTestFile` returns `true`, regardless of the filename itself. -/
theorem isTestFile_true_of_testdir_segment (languageId : String)
    (hlang : languageId ∈ supportedLanguageIds) (filePath : String)
    (marker : String) (hmarker : marker ∈ testDirMarkers)
    (hseg : marker.data ∈ (splitPath filePath).dropLast) :
    isTestFile filePath languageId = true := by
  obtain ⟨cfg, hcfg⟩ := findConfig_isSome_of_supported languageId hlang
  have hmem : marker.data ∈ splitPath filePath := List.mem_of_mem_dropLast hseg
  have hany : hasTestDirMarker (splitPath filePath) = true := by
    rw [hasTestDirMarker, List.any_eq_true]
    refine ⟨marker.data, hmem, ?_⟩
    rw [List.any_eq_true]
    exact ⟨marker, hmarker, charListEq_self marker.data⟩
  simp only [isTestFile, hcfg, hany, if_true]

/-- Witness for C1: the java language is supported, "test" is a directory
marker and a directory segment of `/test/MyClass.java`, and the path
classifies as a test file. -/
theorem isTestFile_true_of_testdir_segment_witness :
    ("java" ∈ supportedLanguageIds ∧ "test" ∈ testDirMarkers ∧
      "test".data ∈ (splitPath "/test/MyClass.java").dropLast) ∧
    isTestFile "/test/MyClass.java" "java" = true :=
  ⟨⟨by decide, by decide, by decide⟩,
    isTestFile_true_of_testdir_segment "java" (by decide) "/test/MyClass.java" "test"
      (by decide) (by decide)⟩

/-- C2: for every supported language, `isTestFile` returns `true` for
filenames matching that language's canonical test-naming convention, even
when no test directory segment is present in the path. -/
theorem isTestFile_true_on_canonical_test_names :
    canonicalTestFileCases.all (fun pc => isTestFile pc.1 pc.2) = true := by
  decide

/-- C3: for every supported language, `isTestFile` returns `false` for
canonical non-test filenames outside test directories, including filenames
matching another language's test convention. -/
theorem isTestFile_false_on_canonical_nontest_names :
    canonicalNonTestFileCases.all (fun pc => !isTestFile pc.1 pc.2) = true := by
  decide

/-- C4: for every unsupported language identifier (one with no language
profile) `isTestFile` returns `false` on every file path without throwing,
and extraction on a malformed, non-matching input text yields the empty
result without throwing. -/
theorem isTestFile_unsupported_language_defaults (languageId : String)
    (h : findConfig languageId = none) :
    (∀ filePath, isTestFile filePath languageId = false) ∧
    extractFunctions malformedText pythonFunctionPattern = [] ∧
    extractClasses malformedText pythonClassPattern = [] := by
  refine ⟨fun filePath => ?_, by decide, by decide⟩
  simp only [isTestFile, h]

/-- Witness for C4: `c++` has no language profile and
`/path/to/MyClass.cpp` classifies as a non-test file under it. -/
theorem isTestFile_unsupported_language_defaults_witness :
    findConfig "c++" = none ∧ isTestFile "/path/to/MyClass.cpp" "c++" = false :=
  ⟨by decide,
    (isTestFile_unsupported_language_defaults "c++" (by decide)).1 "/path/to/MyClass.cpp"⟩

set_option maxRecDepth 200000 in
/-- C5: the extractors list declaration names in first-occurrence order of
the source text, scanning top to bottom, with duplicate names preserved: on
the python fixture the function extractor yields the thirteen names in
source order with `__init__` appearing twice (once per class in which it
occurs), and the class extractor yields `Calculator`. -/
theorem extract_python_fixture_first_occurrence_order :
    extractFunctions pythonFileContent pythonFunctionPattern =
      ["hello_world", "add_numbers", "multiply_numbers", "sum_numbers", "divide_numbers",
       "__init__", "add", "multiply", "square", "from_sum", "__init__", "triple", "main"] ∧
    extractClasses pythonFileContent pythonClassPattern = ["Calculator"] ∧
    (extractFunctions pythonFileContent pythonFunctionPattern).count "__init__" = 2 := by
  have hfn : extractFunctions pythonFileContent pythonFunctionPattern =
      ["hello_world", "add_numbers", "multiply_numbers", "sum_numbers", "divide_numbers",
       "__init__", "add", "multiply", "square", "from_sum", "__init__", "triple", "main"] := by
    decide
  refine ⟨hfn, by decide, ?_⟩
  rw [hfn]
  decide

/-- C6: for every pattern rule, the extractors applied to the empty string
return the empty sequence. -/
theorem extract_empty_string (pattern : PatternRule) :
    extractFunctions "" pattern = [] ∧ extractClasses "" pattern = [] :=
  ⟨rfl, rfl⟩

/-- C7: `isTestFile` is a deterministic pure function of the path string
and the language identifier — its verdict is independent of the filesystem
state, i.e. of whether a file exists at the path — and extraction is
likewise a pure function of the text and the pattern. -/
theorem classification_and_extraction_pure (fsA fsB : String → Bool)
    (filePath : String) (languageId : String) (fileContent : String)
    (pattern : PatternRule) :
    isTestFileInEnv fsA filePath languageId = isTestFileInEnv fsB filePath languageId ∧
    isTestFileInEnv fsA filePath languageId = isTestFile filePath languageId ∧
    extractNamesInEnv fsA fileContent pattern = extractNamesInEnv fsB fileContent pattern ∧
    extractNamesInEnv fsA fileContent pattern = extractNames fileContent pattern :=
  ⟨rfl, rfl, rfl, rfl⟩

/-- C8: `ChatSession.chat` forwards the request to the vendor streaming
client and extracts the conversation identifier from the first streamed
event: after a successful call whose first event carries a
`messageMetadataEvent`, the session identifier equals that event's
conversation id, and no event beyond the first is consumed (the tail of the
stream is arbitrary in this statement). -/
theorem chat_extracts_first_event_conversation_id (connectionExpired : Bool)
    (client : ChatRequest → ChatCommandOutput) (s : ChatSession)
    (chatRequest : ChatRequest) (out : ChatCommandOutput) (s2 : ChatSession)
    (e : ChatResponseEvent) (rest : List ChatResponseEvent)
    (m : MessageMetadataEvent)
    (hok : ChatSession.chat connectionExpired client s chatRequest = .ok (out, s2))
    (hfirst : out.chatResponse = some (e :: rest))
    (hmeta : e.messageMetadataEvent = some m) :
    out = client (forwardRequest s chatRequest) ∧ s2.sessionId = m.conversationId := by
  cases connectionExpired with
  | true => simp [ChatSession.chat] at hok
  | false =>
    simp only [ChatSession.chat, Bool.false_eq_true, if_false] at hok
    split at hok
    case h_1 heq => exact absurd hok (by simp)
    case h_2 events heq =>
      rw [Except.ok.injEq, Prod.mk.injEq] at hok
      obtain ⟨h1, h2⟩ := hok
      subst h1
      have hevents : events = e :: rest := by
        rw [heq] at hfirst
        exact Option.some.inj hfirst
      subst hevents
      refine ⟨rfl, ?_⟩
      rw [← h2]
      simp [extractSessionId, hmeta]

/-- Witness for C8: a client answering with a single metadata event whose
conversation id is `conv-1`; the successful call stores `conv-1` as the
session identifier. -/
theorem chat_extracts_first_event_conversation_id_witness :
    (⟨some [⟨some ⟨some "conv-1"⟩⟩]⟩ : ChatCommandOutput) =
      chatWitnessClient (forwardRequest ⟨none⟩ ⟨none⟩) ∧
    ChatSession.sessionId ⟨some "conv-1"⟩ = some "conv-1" :=
  chat_extracts_first_event_conversation_id false chatWitnessClient ⟨none⟩ ⟨none⟩
    ⟨some [⟨some ⟨some "conv-1"⟩⟩]⟩ ⟨some "conv-1"⟩ ⟨some ⟨some "conv-1"⟩⟩ []
    ⟨some "conv-1"⟩ rfl rfl rfl

/-- C9: `convertLegacy` is total on booleans and the two legacy strings and
throws on everything else: booleans pass through unchanged, `'Disable'`
maps to `false`, `'Enable'` maps to `true`, and every other value raises a
`TypeError`. -/
theorem convertLegacy_total_spec (value : JsValue)
    (hnotBool : ∀ b, value ≠ JsValue.bool b)
    (hnotDisable : value ≠ JsValue.str legacySettingsTelemetryValueDisable)
    (hnotEnable : value ≠ JsValue.str legacySettingsTelemetryValueEnable) :
    convertLegacy (JsValue.bool true) = .ok true ∧
    convertLegacy (JsValue.bool false) = .ok false ∧
    convertLegacy (JsValue.str legacySettingsTelemetryValueDisable) = .ok false ∧
    convertLegacy (JsValue.str legacySettingsTelemetryValueEnable) = .ok true ∧
    convertLegacy value = .error (.unknownTelemetrySetting value) := by
  refine ⟨rfl, rfl, rfl, rfl, ?_⟩
  cases value with
  | bool b => exact absurd rfl (hnotBool b)
  | str s =>
    simp only [convertLegacy]
    rw [if_neg hnotDisable, if_neg hnotEnable]
  | num n =>
    simp only [convertLegacy]
    rw [if_neg hnotDisable, if_neg hnotEnable]
  | null =>
    simp only [convertLegacy]
    rw [if_neg hnotDisable, if_neg hnotEnable]
  | undef =>
    simp only [convertLegacy]
    rw [if_neg hnotDisable, if_neg hnotEnable]

/-- Witness for C9: `null` is neither a boolean nor a legacy string, and
`convertLegacy` maps the booleans and the legacy strings as specified while
throwing a `TypeError` on `null`. -/
theorem convertLegacy_total_spec_witness :
    convertLegacy (JsValue.bool true) = .ok true ∧
    convertLegacy (JsValue.bool false) = .ok false ∧
    convertLegacy (JsValue.str legacySettingsTelemetryValueDisable) = .ok false ∧
    convertLegacy (JsValue.str legacySettingsTelemetryValueEnable) = .ok true ∧
    convertLegacy JsValue.null = .error (.unknownTelemetrySetting JsValue.null) :=
  convertLegacy_total_spec JsValue.null (fun b h => nomatch h) (fun h => nomatch h)
    (fun h => nomatch h)

/-- C10: for every tab type and every feature-flag configuration,
`generateForTab` returns exactly two command groups whose second group
contains exactly `/help` and `/clear`; for `featuredev` every returned
command is disabled with its description replaced by the unavailability
message, while for `cwc` and `unknown` no command is disabled and every
description is left unchanged (the result equals the base groups). -/
theorem generateForTab_groups_spec (props : QuickActionGeneratorProps)
    (tabType : TabType) :
    (generateForTab props tabType).length = 2 ∧
    ((generateForTab props tabType).getD 1 ⟨[]⟩).commands.map QuickActionCommand.command
      = ["/help", "/clear"] ∧
    ((generateForTab props TabType.featuredev).all fun g =>
      g.commands.all fun c =>
        c.disabled && strEq c.description (commandUnavailability TabType.featuredev).1) = true ∧
    generateForTab props TabType.cwc = baseQuickActionCommands props ∧
    generateForTab props TabType.unknown = baseQuickActionCommands props := by
  obtain ⟨fd, gm⟩ := props
  cases fd <;> cases gm <;> cases tabType <;> exact ⟨by decide, by decide, by decide, by decide, by decide⟩
